import Mathlib

/-!
Verification development for the `smooth-bevy-cameras` camera-rig core.

The two controller modules (`src/controllers/fps.rs`, `src/controllers/unreal.rs`)
are embedded faithfully below.  The crate's math support module (`LookAngles`,
`LookTransform`) is not among the given sources, so those definitions are
modelled from the specification document (they carry a `Modelled from the spec:`
doc comment).  Scalars of the input mappers are kept generic over a linear
ordered field so that witnesses can evaluate them at `ℚ`; the control resolvers
use `ℝ` because they involve trigonometry.
-/

namespace SmoothCameras

/-- 2D vector, embedding `DVec2` (a pair of scalars).  `*` on pairs is
componentwise, matching glam's componentwise `DVec2 * DVec2`. -/
abbrev Vec2 (α : Type) := α × α

/-- 3D vector, embedding `DVec3` (a right-nested triple of scalars). -/
abbrev Vec3 (α : Type) := α × α × α

/-- Embeds `DVec2::length_squared`: `x*x + y*y`. -/
def Vec2.lengthSq {α : Type} [Mul α] [Add α] (v : Vec2 α) : α :=
  v.1 * v.1 + v.2 * v.2

/-! ## FPS controller (`src/controllers/fps.rs`) -/

/-- Embeds `FpsCameraController` (fps.rs lines 70-75). -/
structure FpsCameraController (α : Type) where
  enabled : Bool
  mouse_rotate_sensitivity : Vec2 α
  translate_sensitivity : α
  smoothing_weight : α

/-- FPS `ControlEvent` (fps.rs lines 88-91). -/
inductive FpsControlEvent (α : Type) where
  | Rotate (delta : Vec2 α)
  | TranslateEye (delta : Vec3 α)
deriving DecidableEq

/-- Held state of the six directional keys read by the FPS input map. -/
structure FpsKeys where
  w : Bool
  a : Bool
  s : Bool
  d : Bool
  lshift : Bool
  space : Bool
deriving DecidableEq

/-- The fixed key/axis table of fps.rs lines 124-131:
`W ↦ +Z, A ↦ +X, S ↦ -Z, D ↦ -X, LShift ↦ -Y, Space ↦ +Y`,
each paired with whether the key is currently held. -/
def fpsKeyDirs {α : Type} [LinearOrderedField α] (keys : FpsKeys) :
    List (Bool × Vec3 α) :=
  [ (keys.w, (0, 0, 1)),
    (keys.a, (1, 0, 0)),
    (keys.s, (0, 0, -1)),
    (keys.d, (-1, 0, 0)),
    (keys.lshift, (0, -1, 0)),
    (keys.space, (0, 1, 0)) ]

/-- FPS `default_input_map` after the active controller is selected
(fps.rs lines 115-138): one unconditional `Rotate(sensitivity * cursor_delta)`
event, then one `TranslateEye(sensitivity * dir)` per held directional key, in
the table's order. -/
def fpsInputEvents {α : Type} [LinearOrderedField α] (c : FpsCameraController α)
    (cursor_delta : Vec2 α) (keys : FpsKeys) : List (FpsControlEvent α) :=
  FpsControlEvent.Rotate (c.mouse_rotate_sensitivity * cursor_delta) ::
    (fpsKeyDirs keys).filterMap fun kd =>
      if kd.1 then some (FpsControlEvent.TranslateEye (c.translate_sensitivity • kd.2))
      else none

/-- FPS `default_input_map` including the single-active-controller selection
(fps.rs lines 101-108): the first enabled controller wins; with none enabled the
system returns with no events. -/
def fpsDefaultInputMap {α : Type} [LinearOrderedField α]
    (controllers : List (FpsCameraController α)) (cursor_delta : Vec2 α)
    (keys : FpsKeys) : List (FpsControlEvent α) :=
  match controllers.find? (fun c => c.enabled) with
  | none => []
  | some c => fpsInputEvents c cursor_delta keys

/-! ## Unreal controller input mapper (`src/controllers/unreal.rs`) -/

/-- Embeds `UnrealCameraController` (unreal.rs lines 67-89). -/
structure UnrealCameraController (α : Type) where
  enabled : Bool
  rotate_sensitivity : Vec2 α
  mouse_translate_sensitivity : Vec2 α
  wheel_translate_sensitivity : α
  keyboard_mvmt_sensitivity : α
  keyboard_mvmt_wheel_sensitivity : α
  smoothing_weight : α

/-- Unreal `ControlEvent` (unreal.rs lines 105-109). -/
inductive UnrealControlEvent (α : Type) where
  | Locomotion (delta : Vec2 α)
  | Rotate (delta : Vec2 α)
  | TranslateEye (delta : Vec2 α)
deriving DecidableEq

/-- Held state of the three mouse buttons. -/
structure MouseButtons where
  left : Bool
  right : Bool
  middle : Bool
deriving DecidableEq

/-- Held state of the six keys read by the Unreal input map. -/
structure UnrealKeys where
  e : Bool
  q : Bool
  a : Bool
  d : Bool
  s : Bool
  w : Bool
deriving DecidableEq

/-- The `panning_dir` accumulated over pressed keys (unreal.rs lines 153-181):
`E ↦ y+1, Q ↦ y-1, A ↦ x-1, D ↦ x+1`. -/
def unrealPanningDir {α : Type} [LinearOrderedField α] (k : UnrealKeys) : Vec2 α :=
  ((if k.d then 1 else 0) - (if k.a then 1 else 0),
   (if k.e then 1 else 0) - (if k.q then 1 else 0))

/-- The `translation_dir.y` accumulated over pressed keys (unreal.rs lines 171-177):
`S ↦ -1, W ↦ +1`. -/
def unrealTranslationDirY {α : Type} [LinearOrderedField α] (k : UnrealKeys) : α :=
  (if k.w then 1 else 0) - (if k.s then 1 else 0)

/-- The per-frame `panning`/`locomotion`/`keyboard_mvmt_sensitivity` computation
of the Unreal `default_input_map` (unreal.rs lines 183-212).  Result is
`(panning, locomotion, new keyboard_mvmt_sensitivity)`.  The `1/100` floor is
the literal `0.01` of line 196. -/
def unrealFrame {α : Type} [LinearOrderedField α] (c : UnrealCameraController α)
    (b : MouseButtons) (k : UnrealKeys) (cursor_delta : Vec2 α)
    (wheel_delta : α) : Vec2 α × Vec2 α × α :=
  let sens := c.keyboard_mvmt_sensitivity
  let pls : Vec2 α × Vec2 α × α :=
    if b.left || b.middle || b.right then
      let p : Vec2 α := ((0 : α), (0 : α)) + sens • unrealPanningDir k
      let l : Vec2 α :=
        if unrealTranslationDirY (α := α) k ≠ 0 then
          ((0 : α), (0 : α) + sens * unrealTranslationDirY k)
        else ((0 : α), (0 : α))
      (p, l, max (sens + c.keyboard_mvmt_wheel_sensitivity * wheel_delta) (1 / 100))
    else if wheel_delta ≠ 0 then
      (((0 : α), (0 : α)), ((0 : α), (0 : α) + c.wheel_translate_sensitivity * wheel_delta), sens)
    else (((0 : α), (0 : α)), ((0 : α), (0 : α)), sens)
  let panning : Vec2 α :=
    if b.middle || (b.left && b.right) then
      pls.1 + c.mouse_translate_sensitivity * cursor_delta
    else pls.1
  let locomotion : Vec2 α :=
    if b.left && !b.middle && !b.right then
      (c.rotate_sensitivity.1 * cursor_delta.1,
       pls.2.1.2 - c.mouse_translate_sensitivity.2 * cursor_delta.2)
    else pls.2.1
  (panning, locomotion, pls.2.2)

/-- Unreal `default_input_map` after the active controller is selected
(unreal.rs lines 127-227).  Returns the events sent this frame (in send order:
`Rotate`, then `TranslateEye`, then `Locomotion`, each at most once and the
latter two only when nonzero) together with the controller's updated
`keyboard_mvmt_sensitivity`. -/
def unrealInputEvents {α : Type} [LinearOrderedField α] (c : UnrealCameraController α)
    (b : MouseButtons) (k : UnrealKeys) (cursor_delta : Vec2 α)
    (wheel_delta : α) : List (UnrealControlEvent α) × α :=
  let plw := unrealFrame c b k cursor_delta wheel_delta
  ((if !b.left && !b.middle && b.right then
      [UnrealControlEvent.Rotate (c.rotate_sensitivity * cursor_delta)]
    else [])
    ++ (if Vec2.lengthSq plw.1 > 0 then [UnrealControlEvent.TranslateEye plw.1] else [])
    ++ (if Vec2.lengthSq plw.2.1 > 0 then [UnrealControlEvent.Locomotion plw.2.1] else []),
   plw.2.2)

/-- Unreal `default_input_map` including the single-active-controller selection
(unreal.rs lines 121-126): the first enabled controller receives the frame and
its `keyboard_mvmt_sensitivity` is written back; with none enabled the system
returns with no events and no controller mutation. -/
def unrealDefaultInputMap {α : Type} [LinearOrderedField α] :
    List (UnrealCameraController α) → MouseButtons → UnrealKeys → Vec2 α → α →
      List (UnrealControlEvent α) × List (UnrealCameraController α)
  | [], _, _, _, _ => ([], [])
  | c :: rest, b, k, cd, wd =>
    if c.enabled then
      let r := unrealInputEvents c b k cd wd
      (r.1, { c with keyboard_mvmt_sensitivity := r.2 } :: rest)
    else
      let r := unrealDefaultInputMap rest b k cd wd
      (r.1, c :: r.2)

/-- One frame's worth of raw input signals fed to the Unreal input map. -/
structure UnrealFrameInput (α : Type) where
  buttons : MouseButtons
  keys : UnrealKeys
  cursor_delta : Vec2 α
  wheel_delta : α

/-- Running the Unreal input map for one frame, keeping only its persistent
effect on the controller (the adapted `keyboard_mvmt_sensitivity`). -/
def unrealStepController {α : Type} [LinearOrderedField α]
    (c : UnrealCameraController α) (f : UnrealFrameInput α) :
    UnrealCameraController α :=
  { c with keyboard_mvmt_sensitivity :=
      (unrealInputEvents c f.buttons f.keys f.cursor_delta f.wheel_delta).2 }

/-- Running the Unreal input map over a sequence of frames. -/
def unrealRunFrames {α : Type} [LinearOrderedField α]
    (c : UnrealCameraController α) (fs : List (UnrealFrameInput α)) :
    UnrealCameraController α :=
  fs.foldl unrealStepController c

/-- Whether an FPS event is a `Rotate`. -/
def FpsControlEvent.isRotate {α : Type} : FpsControlEvent α → Bool
  | FpsControlEvent.Rotate _ => true
  | FpsControlEvent.TranslateEye _ => false

/-- Whether an FPS event is a `TranslateEye`. -/
def FpsControlEvent.isTranslateEye {α : Type} : FpsControlEvent α → Bool
  | FpsControlEvent.Rotate _ => false
  | FpsControlEvent.TranslateEye _ => true

/-- The axis directions of the currently held FPS keys, in the key table's
order. -/
def fpsHeldDirs {α : Type} [LinearOrderedField α] (keys : FpsKeys) : List (Vec3 α) :=
  (fpsKeyDirs keys).filterMap fun kd => if kd.1 then some kd.2 else none

/-- Whether an Unreal event is a `Locomotion`. -/
def UnrealControlEvent.isLocomotion {α : Type} : UnrealControlEvent α → Bool
  | UnrealControlEvent.Locomotion _ => true
  | _ => false

/-- Whether an Unreal event is a `Rotate`. -/
def UnrealControlEvent.isRotate {α : Type} : UnrealControlEvent α → Bool
  | UnrealControlEvent.Rotate _ => true
  | _ => false

/-- Whether an Unreal event is a `TranslateEye`. -/
def UnrealControlEvent.isTranslateEye {α : Type} : UnrealControlEvent α → Bool
  | UnrealControlEvent.TranslateEye _ => true
  | _ => false

/-! ## Look geometry (modelled from the spec) and the two control resolvers -/

noncomputable section

/-- Standard two-argument arctangent on exact reals, used by the modelled
`LookAngles.fromVector` (the crate's `f64::atan2`). -/
def atan2 (y x : ℝ) : ℝ :=
  if 0 < x then Real.arctan (y / x)
  else if x < 0 then
    (if 0 ≤ y then Real.arctan (y / x) + Real.pi else Real.arctan (y / x) - Real.pi)
  else if 0 < y then Real.pi / 2
  else if y < 0 then -(Real.pi / 2)
  else 0

/-- The small epsilon of the spec's singularity guard ("pitch is clamped away
from exactly ±π/2 by a small epsilon"); the spec leaves the value open, we fix
`0.01`. -/
def pitchEps : ℝ := 1 / 100

/-- Modelled from the spec: `LookAngles` (look_angles.rs is not among the given
sources).  Spec §3: a `(pitch, yaw)` pair in radians derived from a unit look
direction. -/
structure LookAngles where
  pitch : ℝ
  yaw : ℝ

/-- Modelled from the spec: the singularity guard, clamping pitch into
`(-π/2 + ε, π/2 - ε)` (spec §3 and §4.1). -/
def clampPitch (p : ℝ) : ℝ :=
  max (-(Real.pi / 2) + pitchEps) (min (Real.pi / 2 - pitchEps) p)

/-- Modelled from the spec: `LookAngles::from_vector` on a unit direction.
Spec §3 gives `pitch = asin(direction.y)` and `yaw = atan2(-x, -z)` "or
equivalent convention"; we use the equivalent convention `yaw = atan2(x, z)`
(the two differ by π in yaw), which is the one under which the spec's §8 FPS
property holds (a forward `TranslateEye(+Z)` event moves the eye toward the
target).  The guard is enforced after every pitch mutation (spec §3), so it is
applied here as well. -/
def LookAngles.fromVector (v : Vec3 ℝ) : LookAngles :=
  { pitch := clampPitch (Real.arcsin v.2.1), yaw := atan2 v.1 v.2.2 }

/-- Modelled from the spec: `LookAngles::unit_vector`, reconstructing the
direction from `(pitch, yaw)`; the inverse of `fromVector` on unit vectors away
from the singularity, with the convention documented there. -/
def LookAngles.unitVector (a : LookAngles) : Vec3 ℝ :=
  (Real.cos a.pitch * Real.sin a.yaw, Real.sin a.pitch,
   Real.cos a.pitch * Real.cos a.yaw)

/-- Modelled from the spec: `LookAngles::add_yaw` adds with no wraparound
(spec §4.1). -/
def LookAngles.addYaw (a : LookAngles) (delta : ℝ) : LookAngles :=
  { a with yaw := a.yaw + delta }

/-- Modelled from the spec: `LookAngles::add_pitch` adds, then immediately
clamps (spec §4.1). -/
def LookAngles.addPitch (a : LookAngles) (delta : ℝ) : LookAngles :=
  { a with pitch := clampPitch (a.pitch + delta) }

/-- Modelled from the spec: `LookAngles::assert_not_looking_up`, the
resolvers' post-event re-run of the singularity guard (spec §4.4: "after
processing all events, re-run the singularity guard"). -/
def LookAngles.assertNotLookingUp (a : LookAngles) : LookAngles :=
  { a with pitch := clampPitch a.pitch }

/-- Rotation of a vector about the world `Y` (up) axis by angle `θ`, embedding
`DQuat::from_axis_angle(DVec3::Y, θ) * v`. -/
def rotY (θ : ℝ) (v : Vec3 ℝ) : Vec3 ℝ :=
  (Real.cos θ * v.1 + Real.sin θ * v.2.2, v.2.1,
   -Real.sin θ * v.1 + Real.cos θ * v.2.2)

/-- Euclidean length of a `DVec3`. -/
def vecLength (v : Vec3 ℝ) : ℝ :=
  Real.sqrt (v.1 * v.1 + v.2.1 * v.2.1 + v.2.2 * v.2.2)

/-- Modelled from the spec: `LookTransform` (look_transform.rs is not among the
given sources).  Spec §3: eye and target points. -/
structure LookTransform where
  eye : Vec3 ℝ
  target : Vec3 ℝ

/-- Modelled from the spec: `LookTransform::radius` = distance(eye, target). -/
def LookTransform.radius (t : LookTransform) : ℝ :=
  vecLength (t.target - t.eye)

/-- Modelled from the spec: `LookTransform::look_direction` =
`normalize(target - eye)`, none when eye ≈ target (radius ≈ 0); in the exact
model, none precisely when `target = eye`. -/
def LookTransform.lookDirection (t : LookTransform) : Option (Vec3 ℝ) :=
  if t.target - t.eye = 0 then none
  else some ((vecLength (t.target - t.eye))⁻¹ • (t.target - t.eye))

/-- The eye displacement contributed by one FPS event under the fixed
per-frame basis `(rx, ry, rz)`: zero for `Rotate`, the basis combination of the
delta for `TranslateEye` (fps.rs line 172). -/
def fpsTransVec (rx ry rz : Vec3 ℝ) : FpsControlEvent ℝ → Vec3 ℝ
  | FpsControlEvent.Rotate _ => 0
  | FpsControlEvent.TranslateEye d => d.1 • rx + d.2.1 • ry + d.2.2 • rz

/-- One step of the FPS resolver's event loop (fps.rs lines 163-175), on the
state (eye, look angles), with the basis `(rx, ry, rz)` fixed before the loop. -/
def fpsApply (rx ry rz : Vec3 ℝ) (s : Vec3 ℝ × LookAngles)
    (e : FpsControlEvent ℝ) : Vec3 ℝ × LookAngles :=
  match e with
  | FpsControlEvent.Rotate d => (s.1, (s.2.addYaw (-d.1)).addPitch (-d.2))
  | FpsControlEvent.TranslateEye d =>
    (s.1 + d.1 • rx + d.2.1 • ry + d.2.2 • rz, s.2)

/-- FPS `control_system` after the active camera is selected (fps.rs lines
155-179): `look_direction().unwrap()` is modelled as returning `none` (the
unwrap panics on a degenerate direction); otherwise the yaw-only basis is
computed once from the pre-frame angles, the events are folded in arrival
order, the singularity guard is re-run and the target is re-derived from the
(already moved) eye and the old target's distance. -/
def fpsControlSystem (events : List (FpsControlEvent ℝ)) (t : LookTransform) :
    Option LookTransform :=
  match t.lookDirection with
  | none => none
  | some lv =>
    let a0 := LookAngles.fromVector lv
    let rx := rotY a0.yaw (1, 0, 0)
    let ry := rotY a0.yaw (0, 1, 0)
    let rz := rotY a0.yaw (0, 0, 1)
    let s := events.foldl (fpsApply rx ry rz) (t.eye, a0)
    let a := s.2.assertNotLookingUp
    some { eye := s.1,
           target := s.1 + (LookTransform.radius { eye := s.1, target := t.target }) • a.unitVector }

/-- One step of the Unreal resolver's event loop (unreal.rs lines 247-267), on
the state (eye, look angles); `lv` is the look direction captured once at frame
start.  `Locomotion` yaws by `-delta.x` and moves the eye along `lv`;
`TranslateEye` recomputes the yaw-rotated sideways axis from the *current*
angles and moves the eye by `-delta.x * rot_x + (0, delta.y, 0)`. -/
def unrealApply (lv : Vec3 ℝ) (s : Vec3 ℝ × LookAngles)
    (e : UnrealControlEvent ℝ) : Vec3 ℝ × LookAngles :=
  match e with
  | UnrealControlEvent.Locomotion d => (s.1 + d.2 • lv, s.2.addYaw (-d.1))
  | UnrealControlEvent.Rotate d => (s.1, (s.2.addYaw (-d.1)).addPitch (-d.2))
  | UnrealControlEvent.TranslateEye d =>
    (s.1 - d.1 • rotY s.2.yaw (1, 0, 0) + (0, d.2, 0), s.2)

/-- The Unreal resolver's event fold. -/
def unrealRun (lv : Vec3 ℝ) (s : Vec3 ℝ × LookAngles)
    (events : List (UnrealControlEvent ℝ)) : Vec3 ℝ × LookAngles :=
  events.foldl (unrealApply lv) s

/-- Unreal `control_system` after the active camera is selected (unreal.rs
lines 240-271): a degenerate look direction makes the system return with the
transform unchanged; otherwise the events are folded, the guard re-run and the
target re-derived exactly as in the FPS resolver. -/
def unrealControlSystem (events : List (UnrealControlEvent ℝ))
    (t : LookTransform) : LookTransform :=
  match t.lookDirection with
  | none => t
  | some lv =>
    let s := unrealRun lv (t.eye, LookAngles.fromVector lv) events
    let a := s.2.assertNotLookingUp
    { eye := s.1,
      target := s.1 + (LookTransform.radius { eye := s.1, target := t.target }) • a.unitVector }

/-- FPS `control_system` including the single-active-camera selection (fps.rs
lines 146-153): the first enabled camera's transform is updated (a `none`
models the unwrap panic); with none enabled the system returns leaving every
transform unchanged. -/
def fpsControlMulti (events : List (FpsControlEvent ℝ)) :
    List (FpsCameraController ℝ × LookTransform) →
      Option (List (FpsCameraController ℝ × LookTransform))
  | [] => some []
  | (c, t) :: rest =>
    if c.enabled then (fpsControlSystem events t).map fun t2 => (c, t2) :: rest
    else (fpsControlMulti events rest).map fun r => (c, t) :: r

/-- Unreal `control_system` including the single-active-camera selection
(unreal.rs lines 234-238). -/
def unrealControlMulti (events : List (UnrealControlEvent ℝ)) :
    List (UnrealCameraController ℝ × LookTransform) →
      List (UnrealCameraController ℝ × LookTransform)
  | [] => []
  | (c, t) :: rest =>
    if c.enabled then (c, unrealControlSystem events t) :: rest
    else (c, t) :: unrealControlMulti events rest

end

/-! ## Theorems -/

/-- The Unreal input map's persistent effect on `keyboard_mvmt_sensitivity`
(unreal.rs lines 195-196): adapted and floored at `0.01` exactly when some
mouse button is held, untouched otherwise. -/
theorem unrealInputEvents_sens {α : Type} [LinearOrderedField α]
    (c : UnrealCameraController α) (b : MouseButtons) (k : UnrealKeys)
    (cd : Vec2 α) (wd : α) :
    (unrealInputEvents c b k cd wd).2
      = if b.left || b.middle || b.right then
          max (c.keyboard_mvmt_sensitivity + c.keyboard_mvmt_wheel_sensitivity * wd)
            (1 / 100)
        else c.keyboard_mvmt_sensitivity := by
  simp only [unrealInputEvents, unrealFrame]
  split_ifs <;> rfl

/-- C3: in the Unreal input mapper, on every frame with a mouse button held,
`keyboard_mvmt_sensitivity` becomes
`max (old + keyboard_mvmt_wheel_sensitivity * wheel_delta) 0.01` (and is left
untouched with no button held); with wheel delta `+2` and a positive wheel
sensitivity it strictly increases; and over every sequence of frames it never
drops below `0.01`. -/
theorem unreal_sens_adaptive {α : Type} [LinearOrderedField α]
    (c : UnrealCameraController α) (b : MouseButtons) (k : UnrealKeys)
    (cd : Vec2 α) (wd : α) :
    ((b.left || b.middle || b.right) = true →
      (unrealInputEvents c b k cd wd).2
        = max (c.keyboard_mvmt_sensitivity + c.keyboard_mvmt_wheel_sensitivity * wd)
            (1 / 100))
    ∧ ((b.left || b.middle || b.right) = false →
      (unrealInputEvents c b k cd wd).2 = c.keyboard_mvmt_sensitivity)
    ∧ ((b.left || b.middle || b.right) = true →
        0 < c.keyboard_mvmt_wheel_sensitivity →
      c.keyboard_mvmt_sensitivity < (unrealInputEvents c b k cd (2 : α)).2)
    ∧ (∀ fs : List (UnrealFrameInput α),
        1 / 100 ≤ c.keyboard_mvmt_sensitivity →
        1 / 100 ≤ (unrealRunFrames c fs).keyboard_mvmt_sensitivity) := by
  refine ⟨fun h => by rw [unrealInputEvents_sens, if_pos h],
    fun h => by rw [unrealInputEvents_sens, h]; rfl,
    fun h hw => ?_, fun fs => ?_⟩
  · rw [unrealInputEvents_sens, if_pos h]
    exact lt_of_lt_of_le (by linarith) (le_max_left _ _)
  · induction fs generalizing c with
    | nil => intro h; simpa [unrealRunFrames] using h
    | cons f fs ih =>
      intro h
      have hstep : 1 / 100 ≤ (unrealStepController c f).keyboard_mvmt_sensitivity := by
        simp only [unrealStepController, unrealInputEvents_sens]
        split
        · exact le_max_right _ _
        · exact h
      exact ih _ hstep

/-- C3 witness: the adaptive-sensitivity facts at a concrete controller
(`keyboard_mvmt_sensitivity = 0.1`, wheel sensitivity `0.1`), left button held,
wheel delta `+2`, and a one-frame sequence with wheel delta `-50`. -/
theorem unreal_sens_adaptive_witness :
    (unrealInputEvents (⟨true, (1, 1), (1, 1), 1, 1/10, 1/10, 7/10⟩ :
          UnrealCameraController ℚ)
        ⟨true, false, false⟩ ⟨false, false, false, false, false, false⟩ (0, 0) 2).2
      = max (1/10 + (1/10) * 2) (1/100)
    ∧ (1/10 : ℚ) <
      (unrealInputEvents (⟨true, (1, 1), (1, 1), 1, 1/10, 1/10, 7/10⟩ :
          UnrealCameraController ℚ)
        ⟨true, false, false⟩ ⟨false, false, false, false, false, false⟩ (0, 0) 2).2
    ∧ (1 : ℚ)/100 ≤
      (unrealRunFrames (⟨true, (1, 1), (1, 1), 1, 1/10, 1/10, 7/10⟩ :
          UnrealCameraController ℚ)
        [⟨⟨true, false, false⟩, ⟨false, false, false, false, false, false⟩,
          (0, 0), -50⟩]).keyboard_mvmt_sensitivity := by
  have h := unreal_sens_adaptive (α := ℚ) ⟨true, (1, 1), (1, 1), 1, 1/10, 1/10, 7/10⟩
      ⟨true, false, false⟩ ⟨false, false, false, false, false, false⟩ (0, 0) 2
  have h0 := unreal_sens_adaptive (α := ℚ) ⟨true, (1, 1), (1, 1), 1, 1/10, 1/10, 7/10⟩
      ⟨true, false, false⟩ ⟨false, false, false, false, false, false⟩ (0, 0) 0
  exact ⟨h.1 rfl, h.2.2.1 rfl (by norm_num), h0.2.2.2 _ (by norm_num)⟩

/-- C5: on every frame the Unreal input mapper emits at most three control
events — at most one `Rotate`, at most one `TranslateEye` and at most one
`Locomotion` — and it emits `TranslateEye p` only when `p` has non-zero squared
length, `Locomotion l` only when `l` has non-zero squared length. -/
theorem unreal_mapper_at_most_three {α : Type} [LinearOrderedField α]
    (c : UnrealCameraController α) (b : MouseButtons) (k : UnrealKeys)
    (cd : Vec2 α) (wd : α) :
    (unrealInputEvents c b k cd wd).1.length ≤ 3
    ∧ (unrealInputEvents c b k cd wd).1.countP
        (fun e => UnrealControlEvent.isRotate e) ≤ 1
    ∧ (unrealInputEvents c b k cd wd).1.countP
        (fun e => UnrealControlEvent.isTranslateEye e) ≤ 1
    ∧ (unrealInputEvents c b k cd wd).1.countP
        (fun e => UnrealControlEvent.isLocomotion e) ≤ 1
    ∧ (∀ v, UnrealControlEvent.TranslateEye v ∈ (unrealInputEvents c b k cd wd).1 →
        0 < Vec2.lengthSq v)
    ∧ (∀ v, UnrealControlEvent.Locomotion v ∈ (unrealInputEvents c b k cd wd).1 →
        0 < Vec2.lengthSq v) := by
  simp only [unrealInputEvents]
  split_ifs with h1 h2 h3 <;>
    simp_all [UnrealControlEvent.isLocomotion, UnrealControlEvent.isRotate,
      UnrealControlEvent.isTranslateEye]

/-- C5 witness: the mapper-shape facts instantiated at a concrete frame
(left+right held, both keys and wheel active, cursor delta `(3, 4)`). -/
theorem unreal_mapper_at_most_three_witness :
    ((unrealInputEvents (⟨true, (1, 1), (1, 1), 1, 1/10, 1/10, 7/10⟩ :
          UnrealCameraController ℚ)
        ⟨true, true, false⟩ ⟨true, false, false, true, false, true⟩ (3, 4) 2).1.length ≤ 3)
    ∧ (∀ v, UnrealControlEvent.TranslateEye v ∈
        (unrealInputEvents (⟨true, (1, 1), (1, 1), 1, 1/10, 1/10, 7/10⟩ :
            UnrealCameraController ℚ)
          ⟨true, true, false⟩ ⟨true, false, false, true, false, true⟩ (3, 4) 2).1 →
        0 < Vec2.lengthSq v) := by
  have h := unreal_mapper_at_most_three (α := ℚ)
      ⟨true, (1, 1), (1, 1), 1, 1/10, 1/10, 7/10⟩
      ⟨true, true, false⟩ ⟨true, false, false, true, false, true⟩ (3, 4) 2
  exact ⟨h.1, h.2.2.2.2.1⟩

/-- C7: with only the right mouse button held, no relevant key held, a zero
wheel delta and summed pointer delta `(10, 0)`, the Unreal input mapper emits
exactly one event: `Rotate(rotate_sensitivity * (10, 0))`. -/
theorem unreal_right_only_single_rotate {α : Type} [LinearOrderedField α]
    (c : UnrealCameraController α) :
    (unrealInputEvents c ⟨false, true, false⟩ ⟨false, false, false, false, false, false⟩
        ((10 : α), (0 : α)) 0).1
      = [UnrealControlEvent.Rotate (c.rotate_sensitivity * ((10 : α), (0 : α)))] := by
  simp [unrealInputEvents, unrealFrame, unrealPanningDir, unrealTranslationDirY,
    Vec2.lengthSq, Prod.smul_def, smul_eq_mul]

/-- C6: in the Unreal input mapper the wheel delta feeds forward/back
locomotion (`locomotion = (0, wheel_translate_sensitivity * wheel_delta)`)
exactly when no mouse button is held; with a button held, both the computed
locomotion and the emitted events are independent of the wheel delta (it only
adjusts the stored sensitivity). -/
theorem unreal_wheel_locomotion {α : Type} [LinearOrderedField α]
    (c : UnrealCameraController α) (b : MouseButtons) (k : UnrealKeys)
    (cd : Vec2 α) (wd : α) :
    ((b.left || b.middle || b.right) = false →
      (unrealFrame c b k cd wd).2.1 = ((0 : α), c.wheel_translate_sensitivity * wd))
    ∧ ((b.left || b.middle || b.right) = true →
      (unrealFrame c b k cd wd).2.1 = (unrealFrame c b k cd 0).2.1
      ∧ (unrealInputEvents c b k cd wd).1 = (unrealInputEvents c b k cd 0).1) := by
  rcases b with ⟨bl, br, bm⟩
  constructor
  · intro h
    simp only [Bool.or_eq_false_iff] at h
    obtain ⟨⟨h1, h2⟩, h3⟩ := h
    subst h1; subst h2; subst h3
    by_cases hw : wd = 0
    · simp [unrealFrame, hw]
    · simp [unrealFrame, hw]
  · intro h
    refine ⟨?_, ?_⟩
    · simp only [unrealFrame, h]
      rfl
    · simp only [unrealInputEvents, unrealFrame, h]
      rfl

/-- C6 witness: wheel-to-locomotion facts at a concrete controller
(`wheel_translate_sensitivity = 2`): no button held and wheel `+3` gives
locomotion `(0, 2*3)`; left button held makes the events at wheel `+5` and
wheel `0` coincide. -/
theorem unreal_wheel_locomotion_witness :
    (unrealFrame (⟨true, (1, 1), (1, 1), 2, 1/10, 1/10, 7/10⟩ :
          UnrealCameraController ℚ)
        ⟨false, false, false⟩ ⟨false, false, false, false, false, false⟩ (1, 1) 3).2.1
      = ((0 : ℚ), 2 * 3)
    ∧ (unrealInputEvents (⟨true, (1, 1), (1, 1), 2, 1/10, 1/10, 7/10⟩ :
          UnrealCameraController ℚ)
        ⟨true, false, false⟩ ⟨false, false, false, false, false, false⟩ (1, 1) 5).1
      = (unrealInputEvents (⟨true, (1, 1), (1, 1), 2, 1/10, 1/10, 7/10⟩ :
          UnrealCameraController ℚ)
        ⟨true, false, false⟩ ⟨false, false, false, false, false, false⟩ (1, 1) 0).1 := by
  have h1 := (unreal_wheel_locomotion (α := ℚ) ⟨true, (1, 1), (1, 1), 2, 1/10, 1/10, 7/10⟩
      ⟨false, false, false⟩ ⟨false, false, false, false, false, false⟩ (1, 1) 3).1 rfl
  have h2 := (unreal_wheel_locomotion (α := ℚ) ⟨true, (1, 1), (1, 1), 2, 1/10, 1/10, 7/10⟩
      ⟨true, false, false⟩ ⟨false, false, false, false, false, false⟩ (1, 1) 5).2 rfl
  exact ⟨h1, h2.2⟩

/-- C8: with no controller enabled, both default input maps emit zero control
events (and the Unreal one leaves its controllers untouched), and both control
resolvers leave every camera's transform unchanged, for arbitrary input. -/
theorem disabled_controllers_no_effect
    (fcs : List (FpsCameraController ℝ)) (ucs : List (UnrealCameraController ℝ))
    (b : MouseButtons) (uk : UnrealKeys) (fk : FpsKeys)
    (cd : Vec2 ℝ) (wd : ℝ)
    (fevs : List (FpsControlEvent ℝ)) (uevs : List (UnrealControlEvent ℝ))
    (fcams : List (FpsCameraController ℝ × LookTransform))
    (ucams : List (UnrealCameraController ℝ × LookTransform))
    (hf : ∀ c ∈ fcs, c.enabled = false)
    (hu : ∀ c ∈ ucs, c.enabled = false)
    (hfc : ∀ p ∈ fcams, (Prod.fst p).enabled = false)
    (huc : ∀ p ∈ ucams, (Prod.fst p).enabled = false) :
    fpsDefaultInputMap fcs cd fk = []
    ∧ unrealDefaultInputMap ucs b uk cd wd = ([], ucs)
    ∧ fpsControlMulti fevs fcams = some fcams
    ∧ unrealControlMulti uevs ucams = ucams := by
  refine ⟨?_, ?_, ?_, ?_⟩
  · have : fcs.find? (fun c => c.enabled) = none := by
      rw [List.find?_eq_none]
      intro c hc
      simp [hf c hc]
    simp [fpsDefaultInputMap, this]
  · induction ucs with
    | nil => rfl
    | cons c rest ih =>
      have hc : c.enabled = false := hu c (List.mem_cons_self c rest)
      have hrest := ih (fun x hx => hu x (List.mem_cons_of_mem c hx))
      simp [unrealDefaultInputMap, hc, hrest]
  · induction fcams with
    | nil => rfl
    | cons p rest ih =>
      have hc : p.1.enabled = false := hfc p (List.mem_cons_self p rest)
      have hrest := ih (fun x hx => hfc x (List.mem_cons_of_mem p hx))
      rcases p with ⟨c, t⟩
      simp_all [fpsControlMulti]
  · induction ucams with
    | nil => rfl
    | cons p rest ih =>
      have hc : p.1.enabled = false := huc p (List.mem_cons_self p rest)
      have hrest := ih (fun x hx => huc x (List.mem_cons_of_mem p hx))
      rcases p with ⟨c, t⟩
      simp_all [unrealControlMulti]

/-- C8 witness: one disabled controller of each kind, aggressive input
(all keys and buttons, cursor `(3,4)`, wheel `9`, a `Rotate` event pending):
no events are emitted and the transforms are untouched. -/
theorem disabled_controllers_no_effect_witness :
    fpsDefaultInputMap [(⟨false, (1, 1), 1, 1/2⟩ : FpsCameraController ℝ)] (3, 4)
        ⟨true, true, true, true, true, true⟩ = []
    ∧ unrealDefaultInputMap [(⟨false, (1, 1), (1, 1), 1, 1, 1, 1/2⟩ :
          UnrealCameraController ℝ)] ⟨true, true, true⟩
        ⟨true, true, true, true, true, true⟩ (3, 4) 9
      = ([], [⟨false, (1, 1), (1, 1), 1, 1, 1, 1/2⟩])
    ∧ fpsControlMulti [FpsControlEvent.Rotate (1, 2)]
        [((⟨false, (1, 1), 1, 1/2⟩ : FpsCameraController ℝ), ⟨(0, 0, 0), (0, 0, 5)⟩)]
      = some [(⟨false, (1, 1), 1, 1/2⟩, ⟨(0, 0, 0), (0, 0, 5)⟩)]
    ∧ unrealControlMulti [UnrealControlEvent.Rotate (1, 2)]
        [((⟨false, (1, 1), (1, 1), 1, 1, 1, 1/2⟩ : UnrealCameraController ℝ),
          ⟨(0, 0, 0), (0, 0, 5)⟩)]
      = [(⟨false, (1, 1), (1, 1), 1, 1, 1, 1/2⟩, ⟨(0, 0, 0), (0, 0, 5)⟩)] := by
  apply disabled_controllers_no_effect <;>
    · intro x hx
      rw [List.mem_singleton] at hx
      subst hx
      rfl

/-- Evaluation helper: the singularity clamp fixes a zero pitch. -/
theorem clampPitch_zero : clampPitch 0 = 0 := by
  have h := Real.pi_gt_three
  rw [clampPitch, pitchEps]
  rw [min_eq_right (by linarith), max_eq_right (by linarith)]

/-- Evaluation helper: the two-argument arctangent at `(0, -1)` is `π`. -/
theorem atan2_zero_negone : atan2 0 (-1) = Real.pi := by
  rw [atan2, if_neg (by norm_num), if_pos (by norm_num), if_pos (le_refl (0 : ℝ))]
  norm_num [Real.arctan_zero]

/-- Evaluation helper. -/
theorem sqrt_twentyfive : Real.sqrt 25 = 5 := by
  rw [show (25 : ℝ) = 5 ^ 2 by norm_num, Real.sqrt_sq (by norm_num : (0 : ℝ) ≤ 5)]

/-- Evaluation helper. -/
theorem sqrt_sixteen : Real.sqrt 16 = 4 := by
  rw [show (16 : ℝ) = 4 ^ 2 by norm_num, Real.sqrt_sq (by norm_num : (0 : ℝ) ≤ 4)]

/-- Evaluation helper: the look direction of the camera at eye `(0,0,5)`,
target `(0,0,0)` is `(0,0,-1)`. -/
theorem lookDirection_t0 :
    (LookTransform.mk ((0 : ℝ), 0, 5) (0, 0, 0)).lookDirection = some (0, 0, -1) := by
  rw [LookTransform.lookDirection]
  rw [if_neg (by simp [Prod.ext_iff])]
  have hsub : ((0 : ℝ), (0 : ℝ), (0 : ℝ)) - ((0 : ℝ), (0 : ℝ), (5 : ℝ))
      = ((0 : ℝ), (0 : ℝ), (-5 : ℝ)) := by
    simp [Prod.ext_iff]
  rw [show (LookTransform.mk ((0 : ℝ), 0, 5) (0, 0, 0)).target
      - (LookTransform.mk ((0 : ℝ), 0, 5) (0, 0, 0)).eye = ((0 : ℝ), 0, -5) from hsub]
  rw [vecLength]
  norm_num [sqrt_twentyfive, Prod.ext_iff]

/-- Evaluation helper: the look angles of direction `(0,0,-1)` are pitch `0`,
yaw `π`. -/
theorem fromVector_negZ : LookAngles.fromVector ((0 : ℝ), 0, -1) = ⟨0, Real.pi⟩ := by
  rw [LookAngles.fromVector]
  norm_num [Real.arcsin_zero, clampPitch_zero, atan2_zero_negone]

/-- Evaluation helper: the yaw basis at yaw `π`, X axis. -/
theorem rotY_pi_x : rotY Real.pi ((1 : ℝ), 0, 0) = (-1, 0, 0) := by
  rw [rotY]
  norm_num [Real.cos_pi, Real.sin_pi, Prod.ext_iff]

/-- Evaluation helper: the yaw basis at yaw `π`, Y axis. -/
theorem rotY_pi_y : rotY Real.pi ((0 : ℝ), 1, 0) = (0, 1, 0) := by
  rw [rotY]
  norm_num [Real.cos_pi, Real.sin_pi, Prod.ext_iff]

/-- Evaluation helper: the yaw basis at yaw `π`, Z axis. -/
theorem rotY_pi_z : rotY Real.pi ((0 : ℝ), 0, 1) = (0, 0, -1) := by
  rw [rotY]
  norm_num [Real.cos_pi, Real.sin_pi, Prod.ext_iff]

/-- Evaluation helper: the FPS resolver's full output for the C1 scenario:
eye `(0,0,5)`, target `(0,0,0)`, one forward `TranslateEye (0,0,1)` event.
The eye moves to `(0,0,4)` and the re-derived target is again `(0,0,0)`. -/
theorem fps_c1_eval :
    fpsControlSystem [FpsControlEvent.TranslateEye ((0 : ℝ), 0, 1)]
        (LookTransform.mk (0, 0, 5) (0, 0, 0))
      = some (LookTransform.mk (0, 0, 4) (0, 0, 0)) := by
  simp only [fpsControlSystem, lookDirection_t0, fromVector_negZ]
  norm_num [List.foldl, fpsApply, rotY_pi_x, rotY_pi_y, rotY_pi_z,
    LookAngles.assertNotLookingUp, clampPitch_zero, LookAngles.unitVector,
    Real.sin_pi, Real.cos_pi, Real.sin_zero, Real.cos_zero,
    LookTransform.radius, vecLength, Prod.mk_add_mk, Prod.smul_mk,
    smul_eq_mul, Prod.ext_iff, sqrt_sixteen]

/-- C1 counterexample: in the C1 scenario the resulting transform is
eye `(0,0,4)`, target `(0,0,0)`, whose radius is `4`, not the claimed `5`
(fps.rs line 179 reads `radius()` after the eye has already moved, so a forward
translation shrinks the radius). -/
theorem fps_forward_radius_counterexample :
    fpsControlSystem [FpsControlEvent.TranslateEye ((0 : ℝ), 0, 1)]
        (LookTransform.mk (0, 0, 5) (0, 0, 0))
      = some (LookTransform.mk (0, 0, 4) (0, 0, 0))
    ∧ (LookTransform.mk ((0 : ℝ), 0, 4) (0, 0, 0)).radius = 4
    ∧ (4 : ℝ) ≠ 5 := by
  refine ⟨fps_c1_eval, ?_, by norm_num⟩
  norm_num [LookTransform.radius, vecLength, Prod.mk_sub_mk, sqrt_sixteen]

/-- C1 (amended): in the C1 scenario the new eye `(0,0,4)` is the old eye
moved by the event magnitude along the look direction `(0,0,-1)` (toward the
target along −Z), and the re-derived target preserves the look direction, the
new radius being the old radius minus the forward distance (`4 = 5 - 1`). -/
theorem fps_forward_moves_toward_target :
    fpsControlSystem [FpsControlEvent.TranslateEye ((0 : ℝ), 0, 1)]
        (LookTransform.mk (0, 0, 5) (0, 0, 0))
      = some (LookTransform.mk (0, 0, 4) (0, 0, 0))
    ∧ ((0 : ℝ), (0 : ℝ), (4 : ℝ)) = ((0 : ℝ), 0, 5) + (1 : ℝ) • ((0 : ℝ), 0, -1)
    ∧ (LookTransform.mk ((0 : ℝ), 0, 4) (0, 0, 0)).radius
        = (LookTransform.mk ((0 : ℝ), 0, 5) (0, 0, 0)).radius - 1 := by
  refine ⟨fps_c1_eval,
    by norm_num [Prod.ext_iff, Prod.mk_add_mk, Prod.smul_mk, smul_eq_mul], ?_⟩
  norm_num [LookTransform.radius, vecLength, Prod.mk_sub_mk, sqrt_sixteen,
    sqrt_twentyfive]

/-- C2: when the active camera's look direction is degenerate
(`look_direction()` is none, eye = target), the FPS resolver aborts with the
modelled unwrap panic (`none`) for every event sequence, while the Unreal
resolver skips the frame and leaves the transform unchanged.  The FPS half
contradicts the claim's "skip without fatal error": fps.rs line 155 calls
`.unwrap()`. -/
theorem degenerate_direction_outcomes (t : LookTransform)
    (h : t.lookDirection = none) :
    (∀ evs : List (FpsControlEvent ℝ), fpsControlSystem evs t = none)
    ∧ (∀ evs : List (UnrealControlEvent ℝ), unrealControlSystem evs t = t) := by
  constructor <;> intro evs
  · simp [fpsControlSystem, h]
  · simp [unrealControlSystem, h]

/-- C2 witness: the degenerate-direction outcomes at the concrete camera with
eye = target = `(0,0,0)` and an empty event list. -/
theorem degenerate_direction_outcomes_witness :
    fpsControlSystem [] (LookTransform.mk (0, 0, 0) (0, 0, 0)) = none
    ∧ unrealControlSystem [] (LookTransform.mk (0, 0, 0) (0, 0, 0))
      = LookTransform.mk (0, 0, 0) (0, 0, 0) := by
  have h : (LookTransform.mk ((0 : ℝ), 0, 0) (0, 0, 0)).lookDirection = none := by
    simp [LookTransform.lookDirection]
  exact ⟨(degenerate_direction_outcomes _ h).1 [],
    (degenerate_direction_outcomes _ h).2 []⟩

/-- Supporting lemma for C4: the FPS event fold moves the eye by the sum of
the per-event displacements under the fixed basis, independently of the angle
state. -/
theorem fps_foldl_eye (rx ry rz : Vec3 ℝ) (evs : List (FpsControlEvent ℝ)) :
    ∀ s : Vec3 ℝ × LookAngles,
      (evs.foldl (fpsApply rx ry rz) s).1
        = s.1 + (evs.map (fpsTransVec rx ry rz)).sum := by
  induction evs with
  | nil => intro s; simp
  | cons e es ih =>
    intro s
    rw [List.foldl_cons, ih, List.map_cons, List.sum_cons]
    cases e with
    | Rotate d => simp [fpsApply, fpsTransVec]
    | TranslateEye d => simp [fpsApply, fpsTransVec, add_assoc]

/-- C4: the FPS resolver's translation basis is the yaw basis of the pre-frame
angles, fixed before any event is applied: the final eye is the initial eye
plus the sum of all per-event displacements under that basis, and any
reordering (permutation) of the frame's events leaves the final eye
unchanged. -/
theorem fps_basis_precomputed (t : LookTransform) (lv : Vec3 ℝ)
    (evs evs2 : List (FpsControlEvent ℝ))
    (hd : t.lookDirection = some lv) (hp : evs.Perm evs2) :
    ∃ t1 t2, fpsControlSystem evs t = some t1 ∧ fpsControlSystem evs2 t = some t2
      ∧ t1.eye = t.eye + (evs.map (fpsTransVec
            (rotY (LookAngles.fromVector lv).yaw (1, 0, 0))
            (rotY (LookAngles.fromVector lv).yaw (0, 1, 0))
            (rotY (LookAngles.fromVector lv).yaw (0, 0, 1)))).sum
      ∧ t2.eye = t1.eye := by
  simp only [fpsControlSystem, hd]
  refine ⟨_, _, rfl, rfl, ?_, ?_⟩
  · rw [fps_foldl_eye]
  · rw [fps_foldl_eye, fps_foldl_eye, List.Perm.sum_eq (hp.map _)]

/-- C4 witness: the basis-decoupling facts at the concrete C1 camera with a
`Rotate` and a `TranslateEye` event swapped. -/
theorem fps_basis_precomputed_witness :
    ∃ t1 t2, fpsControlSystem
        [FpsControlEvent.Rotate (1, 1), FpsControlEvent.TranslateEye ((0 : ℝ), 0, 1)]
        (LookTransform.mk (0, 0, 5) (0, 0, 0)) = some t1
      ∧ fpsControlSystem
        [FpsControlEvent.TranslateEye ((0 : ℝ), 0, 1), FpsControlEvent.Rotate (1, 1)]
        (LookTransform.mk (0, 0, 5) (0, 0, 0)) = some t2
      ∧ t1.eye = (LookTransform.mk ((0 : ℝ), 0, 5) (0, 0, 0)).eye
          + (([FpsControlEvent.Rotate (1, 1),
               FpsControlEvent.TranslateEye ((0 : ℝ), 0, 1)]).map
              (fpsTransVec (rotY (LookAngles.fromVector ((0 : ℝ), 0, -1)).yaw (1, 0, 0))
                (rotY (LookAngles.fromVector ((0 : ℝ), 0, -1)).yaw (0, 1, 0))
                (rotY (LookAngles.fromVector ((0 : ℝ), 0, -1)).yaw (0, 0, 1)))).sum
      ∧ t2.eye = t1.eye :=
  fps_basis_precomputed _ _ _ _ lookDirection_t0 (List.Perm.swap _ _ _)

/-- C10: in the Unreal resolver's event fold, a `TranslateEye d` appended after
any prefix moves the eye by `-d.x` times the yaw-rotated X axis of the angles
*after that prefix* (so earlier events' yaw mutations are seen) plus the
world-vertical `(0, d.y, 0)` — its y effect is exactly `+d.y` — while a
`Locomotion d` appended after any prefix moves the eye by `d.y` along the
frame-start look direction `lv`, unaffected by the prefix. -/
theorem unreal_event_moment_semantics (lv : Vec3 ℝ) (s : Vec3 ℝ × LookAngles)
    (pre : List (UnrealControlEvent ℝ)) (d : Vec2 ℝ) :
    (unrealRun lv s (pre ++ [UnrealControlEvent.TranslateEye d])).1
      = (unrealRun lv s pre).1
        - d.1 • rotY (unrealRun lv s pre).2.yaw (1, 0, 0) + ((0 : ℝ), d.2, (0 : ℝ))
    ∧ ((unrealRun lv s (pre ++ [UnrealControlEvent.TranslateEye d])).1).2.1
      = ((unrealRun lv s pre).1).2.1 + d.2
    ∧ (unrealRun lv s (pre ++ [UnrealControlEvent.Locomotion d])).1
      = (unrealRun lv s pre).1 + d.2 • lv := by
  have hrun : ∀ e : UnrealControlEvent ℝ,
      unrealRun lv s (pre ++ [e]) = unrealApply lv (unrealRun lv s pre) e := by
    intro e
    simp [unrealRun, List.foldl_append]
  refine ⟨by rw [hrun]; rfl, ?_, by rw [hrun]; rfl⟩
  rw [hrun]
  simp [unrealApply, rotY, Prod.snd_sub, Prod.snd_add, Prod.fst_sub, Prod.fst_add,
    Prod.smul_snd, Prod.smul_fst, smul_eq_mul, mul_zero, sub_zero]

/-- C9: on every frame the FPS input mapper emits one
`Rotate(mouse_rotate_sensitivity * cursor_delta)` first (even for a zero cursor
delta — the count is always exactly one), and the `TranslateEye` events are
exactly `translate_sensitivity • axis` for the held directional keys, in the
key table's order. -/
theorem fps_mapper_events {α : Type} [LinearOrderedField α]
    (c : FpsCameraController α) (cd : Vec2 α) (k : FpsKeys) :
    (fpsInputEvents c cd k).head?
        = some (FpsControlEvent.Rotate (c.mouse_rotate_sensitivity * cd))
    ∧ (fpsInputEvents c cd k).countP (fun e => FpsControlEvent.isRotate e) = 1
    ∧ (fpsInputEvents c cd k).filter (fun e => FpsControlEvent.isTranslateEye e)
        = (fpsHeldDirs k).map
            (fun v => FpsControlEvent.TranslateEye (c.translate_sensitivity • v)) := by
  rcases k with ⟨w, a, s, d, ls, sp⟩
  cases w <;> cases a <;> cases s <;> cases d <;> cases ls <;> cases sp <;>
    simp [fpsInputEvents, fpsKeyDirs, fpsHeldDirs, List.countP, List.countP.go,
      FpsControlEvent.isRotate, FpsControlEvent.isTranslateEye]

/-- C9 witness: the FPS mapper facts at a concrete controller with zero cursor
delta and the W and Space keys held (two `TranslateEye` events emitted). -/
theorem fps_mapper_events_witness :
    (fpsInputEvents (⟨true, (2, 2), 5, 9/10⟩ : FpsCameraController ℚ) (0, 0)
        ⟨true, false, false, false, false, true⟩).head?
      = some (FpsControlEvent.Rotate (((2 : ℚ), (2 : ℚ)) * (0, 0)))
    ∧ (fpsInputEvents (⟨true, (2, 2), 5, 9/10⟩ : FpsCameraController ℚ) (0, 0)
        ⟨true, false, false, false, false, true⟩).filter
          (fun e => FpsControlEvent.isTranslateEye e)
      = [FpsControlEvent.TranslateEye ((5 : ℚ) • ((0 : ℚ), (0 : ℚ), (1 : ℚ))),
         FpsControlEvent.TranslateEye ((5 : ℚ) • ((0 : ℚ), (1 : ℚ), (0 : ℚ)))] := by
  have h := fps_mapper_events (α := ℚ) ⟨true, (2, 2), 5, 9/10⟩ (0, 0)
      ⟨true, false, false, false, false, true⟩
  exact ⟨h.1, by rw [h.2.2]; rfl⟩

end SmoothCameras
